import Mathlib

/-!
Verification development for the dispatch voice-AI backend.

The Python sources are shallowly embedded:
* JSON-like values become the inductive `Val`; Python dicts become
  association lists (`Dict`) with `dget` / `dset` / `dupdate` mirroring
  lookup, single-key assignment and `dict.update` (last writer wins,
  in-place replacement keeps key order, fresh keys are appended).
* The LLM provider calls are modelled as an oracle
  `attempt : Provider → Except String RawLLMResult`; `generate_response`
  (src/app/services/llm_service.py) is embedded over that oracle.
* The websocket turn loop `retell_llm_websocket` and the webhook
  `call_ended` handler (src/app/routes/webhook.py) become explicit state
  passing functions.
* The keyword helpers of `transcript_processor.py` are embedded over
  lists of characters; the regex helpers `_extract_location` /
  `_extract_eta` (which no claim depends on) are parameters of the
  embedding of `_extract_checkin_data`.
-/

/-- JSON-like values stored in structured-result dictionaries. -/
inductive Val where
  | vStr : String → Val
  | vBool : Bool → Val
  | vNone : Val
  | vList : List Val → Val
  | vDict : List (String × Val) → Val

/-- Python truthiness of an optional value, as used by `dict.get(k)` tests. -/
def vTruthy : Option Val → Bool
  | none => false
  | some (.vStr s) => s ≠ ""
  | some (.vBool b) => b
  | some .vNone => false
  | some (.vList l) => !l.isEmpty
  | some (.vDict d) => !d.isEmpty

/-- A Python dict as an association list (keys unique by construction). -/
abbrev Dict := List (String × Val)

/-- Key lookup, `d.get(k)` (first binding wins; dicts built here have unique keys). -/
def dget (d : Dict) (k : String) : Option Val :=
  match d with
  | [] => none
  | (k', v) :: rest => if k' = k then some v else dget rest k

/-- Key membership, `k in d`. -/
def hasKey (d : Dict) (k : String) : Bool :=
  match d with
  | [] => false
  | (k', _) :: rest => k' = k || hasKey rest k

/-- Replace the value bound to an existing key, keeping its position. -/
def setInPlace (d : Dict) (k : String) (v : Val) : Dict :=
  match d with
  | [] => []
  | (k', v') :: rest =>
      if k' = k then (k, v) :: setInPlace rest k v
      else (k', v') :: setInPlace rest k v

/-- Single-key assignment `d[k] = v`: replace in place, else append. -/
def dset (d : Dict) (k : String) (v : Val) : Dict :=
  if hasKey d k then setInPlace d k v else d ++ [(k, v)]

/-- `d.update(new)`: assign every pair of `new` into `d`, in order. -/
def dupdate (d : Dict) : List (String × Val) → Dict
  | [] => d
  | (k, v) :: rest => dupdate (dset d k v) rest

/-- Keys of a dict. -/
def dkeys (d : Dict) : List String := d.map Prod.fst

theorem hasKey_eq_false_iff (d : Dict) (k : String) :
    hasKey d k = false ↔ k ∉ dkeys d := by
  induction d with
  | nil => simp [hasKey, dkeys]
  | cons p rest ih =>
    obtain ⟨k', v'⟩ := p
    simp only [hasKey, dkeys, List.map_cons, List.mem_cons, Bool.or_eq_false_iff,
      decide_eq_false_iff_not, not_or] at *
    constructor
    · rintro ⟨h1, h2⟩
      exact ⟨fun he => h1 he.symm, ih.mp h2⟩
    · rintro ⟨h1, h2⟩
      exact ⟨fun he => h1 he.symm, ih.mpr h2⟩

theorem dget_setInPlace_self (d : Dict) (k : String) (v : Val)
    (h : hasKey d k = true) : dget (setInPlace d k v) k = some v := by
  induction d with
  | nil => simp [hasKey] at h
  | cons p rest ih =>
    obtain ⟨k', v'⟩ := p
    by_cases hp : k' = k
    · simp [setInPlace, hp, dget]
    · simp only [hasKey, Bool.or_eq_true, decide_eq_true_eq] at h
      rcases h with h | h
      · exact absurd h hp
      · simp [setInPlace, hp, dget, ih h]

theorem dget_setInPlace_ne (d : Dict) (k k' : String) (v : Val) (hne : k' ≠ k) :
    dget (setInPlace d k v) k' = dget d k' := by
  induction d with
  | nil => simp [setInPlace]
  | cons p rest ih =>
    obtain ⟨k1, v1⟩ := p
    unfold setInPlace
    by_cases hp : k1 = k
    · subst hp
      have h1 : k1 ≠ k' := fun h => hne h.symm
      simp [dget, h1, ih]
    · by_cases hq : k1 = k'
      · subst hq
        simp [dget, hp, ih]
      · simp [dget, hp, hq, ih]

theorem dget_append_single_self (d : Dict) (k : String) (v : Val)
    (h : hasKey d k = false) : dget (d ++ [(k, v)]) k = some v := by
  induction d with
  | nil => simp [dget]
  | cons p rest ih =>
    obtain ⟨k', v'⟩ := p
    simp only [hasKey, Bool.or_eq_false_iff, decide_eq_false_iff_not] at h
    simp [dget, h.1, ih h.2]

theorem dget_append_single_ne (d : Dict) (k k' : String) (v : Val) (hne : k' ≠ k) :
    dget (d ++ [(k, v)]) k' = dget d k' := by
  have h1 : k ≠ k' := fun h => hne h.symm
  induction d with
  | nil => simp [dget, h1]
  | cons p rest ih =>
    obtain ⟨k1, v1⟩ := p
    by_cases hq : k1 = k'
    · simp [dget, hq]
    · simp [dget, hq, ih]

theorem dget_dset_self (d : Dict) (k : String) (v : Val) :
    dget (dset d k v) k = some v := by
  unfold dset
  split
  case isTrue h => exact dget_setInPlace_self d k v h
  case isFalse h => exact dget_append_single_self d k v (by simpa using h)

theorem dget_dset_ne (d : Dict) (k k' : String) (v : Val) (hne : k' ≠ k) :
    dget (dset d k v) k' = dget d k' := by
  unfold dset
  split
  · exact dget_setInPlace_ne d k k' v hne
  · exact dget_append_single_ne d k k' v hne

theorem dget_dupdate_notin (d : Dict) (new : List (String × Val)) (k : String)
    (h : k ∉ new.map Prod.fst) :
    dget (dupdate d new) k = dget d k := by
  induction new generalizing d with
  | nil => rfl
  | cons p rest ih =>
    obtain ⟨k1, v1⟩ := p
    simp only [List.map_cons, List.mem_cons, not_or] at h
    rw [dupdate, ih _ h.2, dget_dset_ne d k1 k v1 h.1]

theorem dkeys_setInPlace (d : Dict) (k : String) (v : Val) :
    dkeys (setInPlace d k v) = dkeys d := by
  induction d with
  | nil => rfl
  | cons p rest ih =>
    obtain ⟨k1, v1⟩ := p
    simp only [dkeys, List.map_cons] at ih ⊢
    by_cases hp : k1 = k
    · subst hp
      simp [setInPlace, ih]
    · simp [setInPlace, hp, ih]

/-- All keys of a dict are distinct. -/
def NodupKeys (d : Dict) : Prop := (dkeys d).Nodup

theorem nodupKeys_dset (d : Dict) (k : String) (v : Val) (h : NodupKeys d) :
    NodupKeys (dset d k v) := by
  unfold NodupKeys dset
  split
  case isTrue hk => rw [dkeys_setInPlace]; exact h
  case isFalse hk =>
    unfold dkeys
    rw [List.map_append]
    simp only [List.map_cons, List.map_nil]
    rw [List.nodup_append]
    refine ⟨h, List.nodup_singleton _, ?_⟩
    intro a ha
    simp only [List.mem_singleton]
    intro he
    subst he
    exact (hasKey_eq_false_iff d a).mp (by simpa using hk) ha

theorem nodupKeys_dupdate (d : Dict) (new : List (String × Val)) (h : NodupKeys d) :
    NodupKeys (dupdate d new) := by
  induction new generalizing d with
  | nil => exact h
  | cons p rest ih =>
    obtain ⟨k1, v1⟩ := p
    exact ih _ (nodupKeys_dset _ _ _ h)

theorem dget_dupdate_of_mem (d : Dict) (new : Dict) (k : String) (v : Val)
    (hn : NodupKeys new) (hv : dget new k = some v) :
    dget (dupdate d new) k = some v := by
  induction new generalizing d with
  | nil => simp [dget] at hv
  | cons p rest ih =>
    obtain ⟨pk, pv⟩ := p
    unfold NodupKeys dkeys at hn
    simp only [List.map_cons, List.nodup_cons] at hn
    by_cases hp : pk = k
    · subst hp
      have hvv : v = pv := by
        simp [dget] at hv
        exact hv.symm
      subst hvv
      rw [dupdate, dget_dupdate_notin _ _ _ hn.1, dget_dset_self]
    · have hv' : dget rest k = some v := by
        simpa [dget, hp] using hv
      rw [dupdate]
      exact ih _ hn.2 hv'

theorem hasKey_of_dget_some (d : Dict) (k : String) (v : Val)
    (h : dget d k = some v) : hasKey d k = true := by
  induction d with
  | nil => simp [dget] at h
  | cons p rest ih =>
    obtain ⟨k1, v1⟩ := p
    by_cases hp : k1 = k
    · simp [hasKey, hp]
    · simp only [dget, if_neg hp] at h
      simp [hasKey, hp, ih h]

theorem dget_none_hasKey (d : Dict) (k : String) (h : dget d k = none) :
    hasKey d k = false := by
  induction d with
  | nil => simp [hasKey]
  | cons p rest ih =>
    obtain ⟨k1, v1⟩ := p
    by_cases hp : k1 = k
    · simp [dget, hp] at h
    · simp only [dget, if_neg hp] at h
      simp [hasKey, hp, ih h]

/-! ## LLM orchestrator (src/app/services/llm_service.py) -/

/-- The two concrete providers behind `LLMService`. -/
inductive Provider where
  | groq
  | openai
deriving DecidableEq

/-- The argument string attached to a model tool call, abstracted over
`json.loads`: either it parses to a JSON value — object, array, string,
boolean or null; a JSON number behaves exactly like a boolean in every
operation modelled here (not a mapping, not iterable) and is folded into
that case — or `json.loads` raises. -/
inductive ArgPayload where
  | parsed : Val → ArgPayload
  | malformed : ArgPayload

/-- `json.loads(arguments_str)` under the handler's `except: arguments = {}`
policy (webhook.py lines 398-401): only a parse failure is replaced by the
empty object; any successfully parsed value — object or not — is passed on
unchanged. -/
def parseArgsOrEmpty : ArgPayload → Val
  | .parsed v => v
  | .malformed => .vDict []

/-- A model-issued function call: `{"name": ..., "arguments": ...}`. -/
structure FunctionCall where
  name : String
  arguments : ArgPayload

/-- Raw result of `_groq_generate` / `_openai_generate`: content text plus an
optional tool call. -/
structure RawLLMResult where
  content : String
  function_call : Option FunctionCall

/-- Result dict of `generate_response`: raw result plus provider bookkeeping. -/
structure LLMResponse where
  content : String
  function_call : Option FunctionCall
  provider_used : String
  fallback_used : Bool

/-- `if primary_provider == "groq": self._groq_generate(...) else:
self._openai_generate(...)` — the provider a name string routes to. -/
def routeProvider (p : String) : Provider :=
  if p = "groq" then .groq else .openai

/-- `fallback_provider = "openai" if primary_provider == "groq" else "groq"`. -/
def fallbackName (p : String) : String :=
  if p = "groq" then "openai" else "groq"

/-- `LLMService.generate_response` (llm_service.py lines 25-85), over an
oracle `attempt` giving each provider's completion outcome for this request:
try the primary, on any failure retry once on the fallback, on a second
failure raise. -/
def generate_response (attempt : Provider → Except String RawLLMResult)
    (primary_provider : String) : Except String LLMResponse :=
  let fallback_provider := fallbackName primary_provider
  match attempt (routeProvider primary_provider) with
  | .ok r =>
      .ok { content := r.content, function_call := r.function_call,
            provider_used := primary_provider, fallback_used := false }
  | .error _ =>
      match attempt (routeProvider fallback_provider) with
      | .ok r =>
          .ok { content := r.content, function_call := r.function_call,
                provider_used := fallback_provider, fallback_used := true }
      | .error e2 => .error ("All LLM providers failed: " ++ e2)

/-- The providers `generate_response` invokes, in order (it mirrors the
function's control flow: one primary attempt, then one fallback attempt only
when the primary raised). -/
def attemptsOf (attempt : Provider → Except String RawLLMResult)
    (primary_provider : String) : List Provider :=
  match attempt (routeProvider primary_provider) with
  | .ok _ => [routeProvider primary_provider]
  | .error _ =>
      [routeProvider primary_provider, routeProvider (fallbackName primary_provider)]

/-! ## Function declarations exposed to the model (webhook.py FUNCTIONS) -/

/-- JSON-schema types occurring in the declarations. -/
inductive JsonType where
  | jString
  | jBoolean
deriving DecidableEq

/-- One property of a declared function's parameter object. -/
structure ParamDecl where
  pname : String
  jtype : JsonType
  enum : Option (List String)
  description : String

/-- One function declaration. -/
structure FunctionDecl where
  name : String
  description : String
  properties : List ParamDecl
  required : List String

/-- The `FUNCTIONS` list of webhook.py (lines 19-100), transcribed. -/
def FUNCTIONS : List FunctionDecl :=
  [ { name := "update_delivery_status",
      description := "Update the driver\x27s delivery status with current information",
      properties :=
        [ { pname := "status", jtype := .jString,
            enum := some ["driving", "delayed", "arrived", "unloading"],
            description := "Current delivery status" },
          { pname := "eta", jtype := .jString, enum := none,
            description := "Estimated time of arrival" },
          { pname := "location", jtype := .jString, enum := none,
            description := "Current location or address" },
          { pname := "delay_reason", jtype := .jString, enum := none,
            description := "Reason for delay if applicable" },
          { pname := "notes", jtype := .jString, enum := none,
            description := "Additional notes or comments" } ],
      required := ["status"] },
    { name := "report_emergency",
      description := "Report an emergency situation that requires immediate attention",
      properties :=
        [ { pname := "emergency_type", jtype := .jString,
            enum := some ["accident", "breakdown", "medical", "other"],
            description := "Type of emergency" },
          { pname := "location", jtype := .jString, enum := none,
            description := "Current location of emergency" },
          { pname := "safety_status", jtype := .jString, enum := none,
            description := "Safety status of driver and others" },
          { pname := "injury_status", jtype := .jString, enum := none,
            description := "Information about any injuries" },
          { pname := "load_secure", jtype := .jBoolean, enum := none,
            description := "Whether the load is secure" },
          { pname := "description", jtype := .jString, enum := none,
            description := "Detailed description of the emergency" } ],
      required := ["emergency_type", "location"] },
    { name := "end_conversation",
      description := "End the conversation when all required information has been collected",
      properties :=
        [ { pname := "reason", jtype := .jString, enum := none,
            description := "Reason for ending conversation" } ],
      required := [] } ]

/-- Find a declaration by function name. -/
def lookupFunction (n : String) : Option FunctionDecl :=
  FUNCTIONS.find? (fun f => f.name = n)

/-- Find a property of a declaration by name. -/
def lookupParam (f : FunctionDecl) (n : String) : Option ParamDecl :=
  f.properties.find? (fun p => p.pname = n)

/-! ## Conversation session (webhook.py retell_llm_websocket) -/

/-- One transcript / history message: `{"role": ..., "content": ...}`. -/
structure Msg where
  role : String
  content : String
deriving DecidableEq

/-- Outbound turn-response event
`{response_id, content, content_complete, end_call}`. -/
structure TurnOutput where
  response_id : Int
  content : String
  content_complete : Bool
  end_call : Bool
deriving DecidableEq

/-- Inbound turn-request event. -/
structure Event where
  interaction_type : String
  response_id : Int
  transcript : List Msg

/-- Per-call mutable session state: `conversation_history`,
`call.structured_results` and `should_end_call`. -/
structure SessState where
  conversation_history : List Msg
  structured : Dict
  should_end_call : Bool

/-- Webhook.py lines 350-355: walk the transcript backwards and take the
content of the most recent `role == "user"` entry, defaulting to `""`. -/
def last_user_message (transcript : List Msg) : String :=
  match transcript.reverse.find? (fun m => m.role = "user") with
  | some m => m.content
  | none => ""

/-- A character as a one-character string. -/
def charStr (c : Char) : String := String.mk [c]

/-- Unpacking one element of `dict.update(sequence)`: Python iterates the
element expecting exactly a (key, value) pair with a hashable key. A
two-element array with a string key gives that pair; with an array or object
as key Python raises TypeError (unhashable); a two-character string yields
its two characters; a two-key object yields its two keys (iterating a dict
gives its keys); arrays, strings and objects of other sizes raise
ValueError; booleans and null (and numbers, folded into the boolean case)
are not iterable and raise TypeError. A two-element array whose key is a
boolean or null would build a non-string dict key in Python;
`structured_results` is string-keyed everywhere in this system and such a
dict lies outside this embedding's string-keyed model, so that corner is
mapped to the raising case. -/
def pairOfElem : Val → Except Unit (String × Val)
  | .vList [.vStr k, v2] => .ok (k, v2)
  | .vStr s =>
      match s.data with
      | [c1, c2] => .ok (charStr c1, .vStr (charStr c2))
      | _ => .error ()
  | .vDict [(k1, _), (k2, _)] => .ok (k1, .vStr k2)
  | _ => .error ()

/-- `dict.update(sequence)` consumes the sequence element by element,
mutating as it goes; an element that fails to unpack raises, keeping the
mutations already made. Returns the dict as mutated plus whether an
exception was raised. -/
def updatePairSeq (d : Dict) : List Val → Dict × Bool
  | [] => (d, false)
  | e :: rest =>
      match pairOfElem e with
      | .ok (k, v) => updatePairSeq (dset d k v) rest
      | .error _ => (d, true)

/-- `d.update(x)` for a parsed JSON value `x` (webhook.py line 410): a
mapping merges; an array is consumed as a sequence of pairs; a string
iterates one-character elements, so it raises unless empty; booleans and
null (and numbers) are not iterable and raise. Returns the dict as mutated
plus whether an exception was raised. -/
def dictUpdateVal (d : Dict) : Val → Dict × Bool
  | .vDict new => (dupdate d new, false)
  | .vList l => updatePairSeq d l
  | .vStr s => (d, !s.isEmpty)
  | .vBool _ => (d, true)
  | .vNone => (d, true)

/-- `{**x}`: star-unpacking (webhook.py line 422) requires a mapping and
raises TypeError for every other value. -/
def starUnpack : Val → Except Unit Dict
  | .vDict d => .ok d
  | _ => .error ()

/-- Webhook.py lines 381-391: append a fallback-usage record under
`llm_fallbacks`, creating the list if absent (the record's wall-clock
timestamp is abstracted into `entry`). If the key is already bound to a
non-list, Python's `.append` raises AttributeError, caught by the turn's
outer handler; the error carries the dict as left at the raise. -/
def append_fallback_log (structured : Dict) (entry : Val) : Except Dict Dict :=
  let s1 := if hasKey structured "llm_fallbacks" then structured
            else dset structured "llm_fallbacks" (.vList [])
  match dget s1 "llm_fallbacks" with
  | some (.vList l) => .ok (dset s1 "llm_fallbacks" (.vList (l ++ [entry])))
  | _ => .error s1

/-- States whose fallback log, if present, is a list — the only states this
system itself ever writes. -/
def fallback_log_ok (d : Dict) : Prop :=
  dget d "llm_fallbacks" = none ∨ ∃ l, dget d "llm_fallbacks" = some (.vList l)

theorem append_fallback_log_ok (d : Dict) (entry : Val)
    (h : fallback_log_ok d) : ∃ d', append_fallback_log d entry = .ok d' := by
  rcases h with h | ⟨l, h⟩
  · refine ⟨dset (dset d "llm_fallbacks" (.vList []))
      "llm_fallbacks" (.vList ([] ++ [entry])), ?_⟩
    simp only [append_fallback_log]
    rw [if_neg (by simp [dget_none_hasKey d _ h]), dget_dset_self]
  · refine ⟨dset d "llm_fallbacks" (.vList (l ++ [entry])), ?_⟩
    simp only [append_fallback_log]
    rw [if_pos (hasKey_of_dget_some d _ _ h), h]

/-- Result of the function-dispatch block: structured results, (possibly
overridden) reply text, and the end flag. -/
structure ExecResult where
  structured : Dict
  response_text : String
  should_end_call : Bool

/-- The function-dispatch block of `retell_llm_websocket` (webhook.py lines
405-432). `if not call.structured_results: call.structured_results = {}` is
the identity here because an absent dict is modelled as `[]`. An exception
inside the block (a non-mapping `arguments` hitting `.update` or `{**...}`)
is returned as `.error` carrying the dict as mutated before the raise; the
turn's outer handler catches it. -/
def execute_function (function_name : String) (arguments : Val)
    (structured : Dict) (response_text : String) (should_end_call : Bool) :
    Except Dict ExecResult :=
  if function_name = "update_delivery_status" then
    match dictUpdateVal structured arguments with
    | (d1, true) => .error d1
    | (d1, false) =>
        .ok { structured := dset d1 "data_source" (.vStr "websocket_realtime"),
              response_text := "Got it, I\x27ve updated your status. Thank you!",
              should_end_call := should_end_call }
  else if function_name = "report_emergency" then
    match starUnpack arguments with
    | .error _ => .error structured
    | .ok args =>
        .ok { structured := dset
                (dupdate structured (dupdate [("emergency", .vBool true)] args))
                "data_source" (.vStr "websocket_realtime"),
              response_text := "I understand this is an emergency. I\x27m connecting you to a dispatcher now.",
              should_end_call := true }
  else if function_name = "end_conversation" then
    .ok { structured := structured,
          response_text := "Thank you for the update. Drive safely!",
          should_end_call := true }
  else
    .ok { structured := structured, response_text := response_text,
          should_end_call := should_end_call }

/-- One `response_required` turn (webhook.py lines 345-463): returns the new
session state, the emitted turn-response, and whether the loop breaks.
`llm` is the outcome of the `generate_response` call; its `.error`, a raise
in the fallback-log append, or a raise inside the function dispatch all fall
to the same `except` at lines 454-463, which answers the apology with
end_call=false and keeps the loop running (the assistant reply is then not
appended to the history, and structured results keep any mutation made
before the raise). -/
def handle_response_required (llm_provider : String) (st : SessState)
    (response_id : Int) (transcript : List Msg)
    (llm : Except String LLMResponse) : SessState × TurnOutput × Bool :=
  let lum := last_user_message transcript
  let hist1 := if lum ≠ "" then st.conversation_history ++ [⟨"user", lum⟩]
               else st.conversation_history
  match llm with
  | .error _ =>
      ({ st with conversation_history := hist1 },
       ⟨response_id, "I\x27m having trouble processing that. Can you repeat?",
        true, false⟩,
       false)
  | .ok resp =>
      match (if resp.fallback_used then
               append_fallback_log st.structured
                 (.vDict [("primary", .vStr llm_provider),
                          ("used", .vStr resp.provider_used)])
             else .ok st.structured) with
      | .error d1 =>
          ({ conversation_history := hist1, structured := d1,
             should_end_call := st.should_end_call },
           ⟨response_id, "I\x27m having trouble processing that. Can you repeat?",
            true, false⟩,
           false)
      | .ok structured1 =>
          match resp.function_call with
          | some fc =>
              match execute_function fc.name (parseArgsOrEmpty fc.arguments)
                      structured1 resp.content st.should_end_call with
              | .error d2 =>
                  ({ conversation_history := hist1, structured := d2,
                     should_end_call := st.should_end_call },
                   ⟨response_id,
                    "I\x27m having trouble processing that. Can you repeat?",
                    true, false⟩,
                   false)
              | .ok exec =>
                  ({ conversation_history :=
                       hist1 ++ [⟨"assistant", exec.response_text⟩],
                     structured := exec.structured,
                     should_end_call := exec.should_end_call },
                   ⟨response_id, exec.response_text, true, exec.should_end_call⟩,
                   exec.should_end_call)
          | none =>
              ({ conversation_history := hist1 ++ [⟨"assistant", resp.content⟩],
                 structured := structured1,
                 should_end_call := st.should_end_call },
               ⟨response_id, resp.content, true, st.should_end_call⟩,
               st.should_end_call)

/-- One iteration of the receive loop (webhook.py lines 339-466):
`response_required` is answered, `update_only` and unknown interaction types
are ignored. -/
def session_step (llm_provider : String) (st : SessState) (ev : Event)
    (llm : Except String LLMResponse) : SessState × List TurnOutput × Bool :=
  if ev.interaction_type = "response_required" then
    let r := handle_response_required llm_provider st ev.response_id
               ev.transcript llm
    (r.1, [r.2.1], r.2.2)
  else
    (st, [], false)

/-- The receive loop over a finite inbound trace, each event paired with the
LLM outcome for that turn; stops early when a turn sets the end flag. -/
def run_session (llm_provider : String) (st : SessState) :
    List (Event × Except String LLMResponse) → SessState × List TurnOutput
  | [] => (st, [])
  | (ev, llm) :: rest =>
      let r := session_step llm_provider st ev llm
      if r.2.2 then (r.1, r.2.1)
      else
        let r2 := run_session llm_provider r.1 rest
        (r2.1, r.2.1 ++ r2.2)

/-- The unsolicited initial event (webhook.py lines 326-336). -/
def initial_turn_output (initial_message : String) : TurnOutput :=
  ⟨0, initial_message, true, false⟩

/-- Session state right after connect: empty history, structured results as
stored on the call record, end flag false. -/
def init_state (structured0 : Dict) : SessState := ⟨[], structured0, false⟩

/-! ## Post-call webhook `call_ended` handling (webhook.py retell_webhook) -/

/-- The gate of webhook.py lines 230-235: `call.structured_results` is truthy,
a dict, non-empty, and does not contain the key `llm_fallbacks`. -/
def has_websocket_data (sr : Option Dict) : Bool :=
  match sr with
  | some d => !d.isEmpty && !hasKey d "llm_fallbacks"
  | none => false

/-- The transcript-processing part of the `call_ended` branch (webhook.py
lines 227-270), over the prior structured results `sr0` and the outcome
`post` of `post_process_transcript_with_llm` (`.error` models an exception
escaping it, caught at lines 263-270). Returns the final
`call.structured_results`. -/
def process_call_ended (sr0 : Option Dict) (raw_transcript : String)
    (post : Except String Dict) : Option Dict :=
  if raw_transcript ≠ "" then
    if has_websocket_data sr0 then
      some (dset (sr0.getD []) "data_source" (.vStr "websocket_realtime"))
    else
      match post with
      | .ok structured_data =>
          let merged :=
            match sr0 with
            | some d => if d.isEmpty then structured_data
                        else dupdate d structured_data
            | none => structured_data
          some (dset merged "data_source" (.vStr "webhook_postprocessing"))
      | .error msg =>
          some [("error", .vStr "post_processing_failed"),
                ("message", .vStr msg),
                ("data_source", .vStr "error")]
  else sr0

/-- Final `data_source` tag of a structured-results value. -/
def provenance (r : Option Dict) : Option Val :=
  r.bind (fun d => dget d "data_source")

/-! ## Quality score (src/app/services/call_analysis_service.py) -/

/-- `round(score, 1)`; exact on the half-integer scores produced here, so
the Python banker-rounding tie rule never fires. -/
def round1 (q : ℚ) : ℚ := (round (10 * q) : ℤ) / 10

/-- `_calculate_quality_score` (call_analysis_service.py lines 143-181),
with the sentiment string taken from `sentiment_result.get("sentiment")`. -/
def calculate_quality_score (conversation_history : Option (List Msg))
    (structured_results : Option Dict) (sentiment : String) : ℚ :=
  let score : ℚ := 5
  let score :=
    match structured_results with
    | some d =>
        if d.isEmpty then score
        else
          let s1 := if vTruthy (dget d "status") then score + 2 else score
          if vTruthy (dget d "eta") then s1 + 1 else s1
    | none => score
  let score :=
    if sentiment = "positive" then score + 3/2
    else if sentiment = "negative" then score - 1
    else score
  let score :=
    match conversation_history with
    | some l =>
        if l.isEmpty then score
        else
          let c := l.length
          if 5 ≤ c ∧ c ≤ 10 then score + 1
          else if c < 3 then score - 1/2
          else if 15 < c then score - 1/2
          else score
    | none => score
  let score :=
    match structured_results with
    | some d =>
        if !d.isEmpty && vTruthy (dget d "emergency") then score + 1/2
        else score
    | none => score
  max 0 (min 10 (round1 score))

/-- The quality-score formula exactly as the claim words it: the same
additive adjustments, but `-0.5` applies whenever the turn count is below 3
(an absent history counts 0 turns), and the result is clamped to [0,10] and
then rounded to one decimal. -/
def claimed_quality_score (conversation_history : Option (List Msg))
    (structured_results : Option Dict) (sentiment : String) : ℚ :=
  let score : ℚ := 5
  let score :=
    match structured_results with
    | some d => if vTruthy (dget d "status") then score + 2 else score
    | none => score
  let score :=
    match structured_results with
    | some d => if vTruthy (dget d "eta") then score + 1 else score
    | none => score
  let score :=
    if sentiment = "positive" then score + 3/2
    else if sentiment = "negative" then score - 1
    else score
  let c := match conversation_history with
    | some l => l.length
    | none => 0
  let score :=
    if 5 ≤ c ∧ c ≤ 10 then score + 1
    else if c < 3 then score - 1/2
    else if 15 < c then score - 1/2
    else score
  let score :=
    match structured_results with
    | some d => if vTruthy (dget d "emergency") then score + 1/2 else score
    | none => score
  round1 (max 0 (min 10 score))

/-- The formula as amended: the turn-count adjustments apply only when a
non-empty conversation history is supplied (the code's `if
conversation_history:` guard skips them for `None` or `[]`). -/
def amended_quality_score (conversation_history : Option (List Msg))
    (structured_results : Option Dict) (sentiment : String) : ℚ :=
  let score : ℚ := 5
  let score :=
    match structured_results with
    | some d => if vTruthy (dget d "status") then score + 2 else score
    | none => score
  let score :=
    match structured_results with
    | some d => if vTruthy (dget d "eta") then score + 1 else score
    | none => score
  let score :=
    if sentiment = "positive" then score + 3/2
    else if sentiment = "negative" then score - 1
    else score
  let score :=
    match conversation_history with
    | some l =>
        if l.isEmpty then score
        else
          let c := l.length
          if 5 ≤ c ∧ c ≤ 10 then score + 1
          else if c < 3 then score - 1/2
          else if 15 < c then score - 1/2
          else score
    | none => score
  let score :=
    match structured_results with
    | some d => if vTruthy (dget d "emergency") then score + 1/2 else score
    | none => score
  round1 (max 0 (min 10 score))

/-! ## Heuristic transcript processor (src/app/services/transcript_processor.py) -/

/-- ASCII lowercasing, `str.lower()` on the ASCII transcripts handled here. -/
def lowerStr (s : String) : String := String.mk (s.data.map Char.toLower)

/-- `pat in s` on character lists. -/
def listIn (pat : List Char) : List Char → Bool
  | [] => pat.isEmpty
  | c :: cs => pat.isPrefixOf (c :: cs) || listIn pat cs

/-- Python substring test `pat in s`. -/
def strContains (s pat : String) : Bool := listIn pat.data s.data

/-- `str.capitalize()`: first character upper-cased, the rest lower-cased. -/
def capitalizeStr (s : String) : String :=
  match s.data with
  | [] => ""
  | c :: cs => String.mk (c.toUpper :: cs.map Char.toLower)

/-- `TranscriptProcessor.EMERGENCY_KEYWORDS`. -/
def EMERGENCY_KEYWORDS : List String :=
  ["emergency", "accident", "crash", "blowout", "breakdown",
   "medical", "injured", "hurt", "sick", "fire", "help"]

/-- `TranscriptProcessor.STATUS_KEYWORDS`, in dict insertion order. -/
def STATUS_KEYWORDS : List (String × List String) :=
  [("driving", ["driving", "on the road", "en route", "heading", "moving"]),
   ("delayed", ["delayed", "stuck", "waiting", "traffic", "late"]),
   ("arrived", ["arrived", "here", "at the location", "made it", "pulled in"]),
   ("unloading", ["unloading", "unload", "getting unloaded", "at the dock"])]

/-- `_detect_emergency` (lines 46-49). -/
def detect_emergency (transcript : String) : Bool :=
  EMERGENCY_KEYWORDS.any (fun k => strContains (lowerStr transcript) k)

/-- The status loop of `_extract_checkin_data` (lines 56-60): first matching
status, capitalized, default `"Unknown"`. -/
def find_driver_status (tlow : String) : String :=
  match STATUS_KEYWORDS.find? (fun p => p.2.any (fun k => strContains tlow k)) with
  | some p => capitalizeStr p.1
  | none => "Unknown"

/-- The `reasons` table of `_extract_delay_reason` (lines 168-173), in dict
insertion order. -/
def DELAY_REASONS : List (String × List String) :=
  [("Heavy Traffic", ["traffic", "congestion", "jam"]),
   ("Weather", ["weather", "rain", "snow", "storm", "fog"]),
   ("Mechanical", ["mechanical", "truck issue", "problem with"]),
   ("None", ["no delay", "on time", "on schedule"])]

/-- `_extract_delay_reason` (lines 164-179). -/
def extract_delay_reason (transcript : String) : Option String :=
  let tlow := lowerStr transcript
  (DELAY_REASONS.find? (fun p => p.2.any (fun k => strContains tlow k))).map
    Prod.fst

/-- `_extract_unloading_status` (lines 181-196); the `door\s+(\d+)` regex is
the parameter `doorMatch`. -/
def extract_unloading_status (doorMatch : String → Option String)
    (transcript : String) : Option String :=
  let tlow := lowerStr transcript
  let fromDoor : Option String :=
    if strContains tlow "door" then
      (doorMatch tlow).map (fun n => "In Door " ++ n)
    else none
  match fromDoor with
  | some s => some s
  | none =>
      if strContains tlow "waiting" || strContains tlow "lumper" then
        some "Waiting for Lumper"
      else if strContains tlow "detention" then some "Detention"
      else some "N/A"

/-- `_check_pod_acknowledgment` (lines 198-207). -/
def check_pod_acknowledgment (transcript : String) : Bool :=
  let tlow := lowerStr transcript
  let pod_words := ["pod", "proof of delivery", "paperwork"]
  let ack_words := ["yes", "sure", "okay", "got it", "will do", "understood"]
  pod_words.any (fun w => strContains tlow w) &&
    ack_words.any (fun w => strContains tlow w)

/-- `_extract_safety_status` (lines 209-218). -/
def extract_safety_status (transcript : String) : Option String :=
  let tlow := lowerStr transcript
  if ["safe", "okay", "fine", "unharmed"].any (fun w => strContains tlow w) then
    some "Driver confirmed everyone is safe"
  else if ["unsafe", "danger", "not safe"].any (fun w => strContains tlow w) then
    some "Safety concerns reported"
  else none

/-- `_extract_injury_status` (lines 220-229). -/
def extract_injury_status (transcript : String) : Option String :=
  let tlow := lowerStr transcript
  if ["no injuries", "not hurt", "not injured", "everyone\x27s fine"].any
      (fun w => strContains tlow w) then
    some "No injuries reported"
  else if ["injured", "hurt", "bleeding", "pain"].any
      (fun w => strContains tlow w) then
    some "Injuries reported"
  else none

/-- `_check_load_secure` (lines 231-240). -/
def check_load_secure (transcript : String) : Option Bool :=
  let tlow := lowerStr transcript
  if ["load is secure", "cargo safe", "freight okay"].any
      (fun w => strContains tlow w) then
    some true
  else if ["load damaged", "cargo shift", "freight issue"].any
      (fun w => strContains tlow w) then
    some false
  else none

/-- A Python `Optional[str]` as a JSON value. -/
def optStrVal : Option String → Val
  | some s => .vStr s
  | none => .vNone

/-- A Python `Optional[bool]` as a JSON value. -/
def optBoolVal : Option Bool → Val
  | some b => .vBool b
  | none => .vNone

/-- `_extract_checkin_data` (lines 51-93), returning the
`CheckInResult.model_dump()` dict. The regex-based helpers
`_extract_location` / `_extract_eta` and the door-number regex are
parameters; no field here depends on them. -/
def extract_checkin_data (extLoc extEta : String → Option String)
    (doorMatch : String → Option String) (transcript : String) : Dict :=
  let tlow := lowerStr transcript
  let driver_status := find_driver_status tlow
  let call_outcome :=
    if lowerStr driver_status = "arrived" ∨ lowerStr driver_status = "unloading"
    then "Arrival Confirmation" else "In-Transit Update"
  [("call_outcome", .vStr call_outcome),
   ("driver_status", .vStr driver_status),
   ("current_location", optStrVal (extLoc transcript)),
   ("eta", optStrVal (extEta transcript)),
   ("delay_reason", optStrVal (extract_delay_reason transcript)),
   ("unloading_status", optStrVal (extract_unloading_status doorMatch transcript)),
   ("pod_reminder_acknowledged", .vBool (check_pod_acknowledgment transcript))]

/-- `_extract_emergency_data` (lines 95-130), returning the
`EmergencyResult.model_dump()` dict. -/
def extract_emergency_data (extLoc : String → Option String)
    (transcript : String) : Dict :=
  let tlow := lowerStr transcript
  let emergency_type :=
    if ["accident", "crash", "hit"].any (fun w => strContains tlow w) then
      "Accident"
    else if ["breakdown", "blowout", "broke down"].any
        (fun w => strContains tlow w) then
      "Breakdown"
    else if ["medical", "sick", "injured", "hurt"].any
        (fun w => strContains tlow w) then
      "Medical"
    else "Other"
  [("call_outcome", .vStr "Emergency Escalation"),
   ("emergency_type", .vStr emergency_type),
   ("safety_status", optStrVal (extract_safety_status transcript)),
   ("injury_status", optStrVal (extract_injury_status transcript)),
   ("emergency_location", optStrVal (extLoc transcript)),
   ("load_secure", optBoolVal (check_load_secure transcript)),
   ("escalation_status", .vStr "Connected to Human Dispatcher")]

/-- `process_transcript` (lines 23-44); `scenario_type` is accepted and, as
in the source, unused. -/
def process_transcript (extLoc extEta : String → Option String)
    (doorMatch : String → Option String) (transcript : String)
    (scenario_type : Option String) : Dict :=
  if detect_emergency transcript then extract_emergency_data extLoc transcript
  else extract_checkin_data extLoc extEta doorMatch transcript

/-! ## Theorems -/

/-- C6 counterexample: in the declared schema of `report_emergency` the
required list is exactly `["emergency_type", "location"]` — it does not
include `escalation_status` — and `escalation_status` is not among the
declared properties at all, so it cannot be a closed enumeration there. -/
theorem c6_schema_counterexample :
    (lookupFunction "report_emergency").map (fun f => f.required)
      = some ["emergency_type", "location"]
    ∧ (lookupFunction "report_emergency").map
        (fun f => f.properties.map (fun p => p.pname))
      = some ["emergency_type", "location", "safety_status", "injury_status",
              "load_secure", "description"]
    ∧ "escalation_status" ∉ (["emergency_type", "location"] : List String) := by
  refine ⟨rfl, rfl, ?_⟩
  decide

/-- C6 (amended): `report_emergency` requires exactly `emergency_type` and
`location`; `emergency_type` is the closed enumeration
{accident, breakdown, medical, other}; `escalation_status` does not occur in
the declaration; `update_delivery_status.status` is the closed enumeration
{driving, delayed, arrived, unloading}. -/
theorem c6_report_emergency_schema :
    (lookupFunction "report_emergency").map (fun f => f.required)
      = some ["emergency_type", "location"]
    ∧ ((lookupFunction "report_emergency").bind
        (fun f => lookupParam f "emergency_type")).map (fun p => p.enum)
      = some (some ["accident", "breakdown", "medical", "other"])
    ∧ ((lookupFunction "report_emergency").bind
        (fun f => lookupParam f "escalation_status")) = none
    ∧ ((lookupFunction "update_delivery_status").bind
        (fun f => lookupParam f "status")).map (fun p => p.enum)
      = some (some ["driving", "delayed", "arrived", "unloading"]) :=
  ⟨rfl, rfl, rfl, rfl⟩

/-- C10: provider selection in `generate_response` is decided purely by
string equality with "groq": any other primary string routes the primary
attempt to OpenAI with Groq as the single fallback, and exactly "groq"
selects Groq primary with OpenAI fallback. -/
theorem c10_provider_routing :
    ∀ p : String,
      (p ≠ "groq" →
        routeProvider p = .openai ∧ fallbackName p = "groq" ∧
          routeProvider (fallbackName p) = .groq)
      ∧ (p = "groq" →
        routeProvider p = .groq ∧ fallbackName p = "openai" ∧
          routeProvider (fallbackName p) = .openai) := by
  intro p
  constructor
  · intro h
    simp [routeProvider, fallbackName, h]
  · intro h
    subst h
    simp [routeProvider, fallbackName]

/-- C10 witness: a misspelled provider name routes to OpenAI primary with
Groq fallback, and "groq" routes to Groq primary with OpenAI fallback. -/
theorem c10_provider_routing_witness :
    (routeProvider "Groq" = .openai ∧ fallbackName "Groq" = "groq" ∧
      routeProvider (fallbackName "Groq") = .groq)
    ∧ (routeProvider "groq" = .groq ∧ fallbackName "groq" = "openai" ∧
      routeProvider (fallbackName "groq") = .openai) :=
  ⟨(c10_provider_routing "Groq").1 (by decide),
   (c10_provider_routing "groq").2 rfl⟩

/-- C3: on a primary failure `generate_response` attempts exactly the single
alternate provider and no more; when both fail it raises the orchestration
error; every successful result reports the provider that actually answered
(`provider_used`) and whether failover occurred (`fallback_used`). -/
theorem c3_generate_failover :
    ∀ (attempt : Provider → Except String RawLLMResult) (primary : String),
      (∀ e, attempt (routeProvider primary) = .error e →
        attemptsOf attempt primary
          = [routeProvider primary, routeProvider (fallbackName primary)])
      ∧ (∀ e e2, attempt (routeProvider primary) = .error e →
          attempt (routeProvider (fallbackName primary)) = .error e2 →
          generate_response attempt primary
            = .error ("All LLM providers failed: " ++ e2))
      ∧ (∀ res, generate_response attempt primary = .ok res →
          (res.fallback_used = false ∧ res.provider_used = primary ∧
            attempt (routeProvider primary)
              = .ok ⟨res.content, res.function_call⟩)
          ∨ (res.fallback_used = true ∧ res.provider_used = fallbackName primary ∧
            attempt (routeProvider (fallbackName primary))
              = .ok ⟨res.content, res.function_call⟩)) := by
  intro attempt primary
  refine ⟨?_, ?_, ?_⟩
  · intro e he
    simp only [attemptsOf]
    rw [he]
  · intro e e2 he he2
    simp only [generate_response]
    rw [he, he2]
  · intro res hres
    simp only [generate_response] at hres
    cases hA : attempt (routeProvider primary) with
    | ok r =>
        rw [hA] at hres
        simp only [Except.ok.injEq] at hres
        subst hres
        exact Or.inl ⟨rfl, rfl, rfl⟩
    | error e =>
        rw [hA] at hres
        cases hB : attempt (routeProvider (fallbackName primary)) with
        | ok r =>
            rw [hB] at hres
            simp only [Except.ok.injEq] at hres
            subst hres
            exact Or.inr ⟨rfl, rfl, rfl⟩
        | error e2 =>
            rw [hB] at hres
            simp at hres

/-- C3 witness: with a primary that fails and a fallback that fails, exactly
the two providers are attempted in order and the orchestration error is
raised. -/
theorem c3_generate_failover_witness :
    attemptsOf (fun _ => .error "boom") "groq" = [.groq, .openai]
    ∧ generate_response (fun _ => .error "boom") "groq"
        = .error ("All LLM providers failed: " ++ "boom") := by
  constructor
  · have h := (c3_generate_failover (fun _ => .error "boom") "groq").1 "boom" rfl
    simpa [routeProvider, fallbackName] using h
  · exact (c3_generate_failover (fun _ => .error "boom") "groq").2.1
      "boom" "boom" rfl rfl

/-- C9: on the transcript "I'm running late, stuck in traffic, should be
there by 5pm" the heuristic extractor takes the check-in path and returns
driver_status "Delayed" with delay_reason "Heavy Traffic", which contains
"Traffic"; this holds for every instantiation of the regex helpers. -/
theorem c9_heuristic_delayed_traffic :
    ∀ (extLoc extEta doorMatch : String → Option String)
      (scenario : Option String),
      dget (process_transcript extLoc extEta doorMatch
              "I\x27m running late, stuck in traffic, should be there by 5pm"
              scenario) "driver_status" = some (.vStr "Delayed")
      ∧ dget (process_transcript extLoc extEta doorMatch
              "I\x27m running late, stuck in traffic, should be there by 5pm"
              scenario) "delay_reason" = some (.vStr "Heavy Traffic")
      ∧ strContains "Heavy Traffic" "Traffic" = true := by
  intro extLoc extEta doorMatch scenario
  exact ⟨rfl, rfl, rfl⟩

/-- C4 counterexample: with no conversation history (turn count 0, which is
below 3) the code applies no length penalty and scores 5.0, while the
formula as claimed applies the -0.5 penalty and yields 4.5. -/
theorem c4_quality_score_counterexample :
    calculate_quality_score none none "neutral" = 5
    ∧ claimed_quality_score none none "neutral" = 9/2
    ∧ (5 : ℚ) ≠ 9/2 := by
  refine ⟨?_, ?_, by norm_num⟩
  · simp only [calculate_quality_score]
    split_ifs <;>
      first
        | (norm_num [round1, round_eq, min_def, max_def]; done)
        | (simp_all; done)
  · simp only [claimed_quality_score]
    split_ifs <;>
      first
        | (norm_num [round1, round_eq, min_def, max_def]; done)
        | (simp_all; done)

set_option maxHeartbeats 1600000 in
/-- C4 (amended): the quality score equals the claimed deterministic formula
with the turn-count adjustments applied only when a non-empty history is
supplied (absent or empty histories get no length adjustment); and the
result always lies within [0, 10]. -/
theorem c4_quality_score :
    ∀ (h : Option (List Msg)) (sr : Option Dict) (s : String),
      calculate_quality_score h sr s = amended_quality_score h sr s
      ∧ 0 ≤ calculate_quality_score h sr s
      ∧ calculate_quality_score h sr s ≤ 10 := by
  have hb : ∀ q : ℚ, 0 ≤ max 0 (min 10 q) ∧ max 0 (min 10 q) ≤ 10 :=
    fun q => ⟨le_max_left 0 _, max_le (by norm_num) (min_le_left _ _)⟩
  intro h sr s
  refine ⟨?_, (hb _).1, (hb _).2⟩
  rcases sr with _ | d
  case _ =>
    rcases h with _ | l
    case _ =>
      simp only [calculate_quality_score, amended_quality_score]
      split_ifs <;>
        first
          | (norm_num [round1, round_eq, min_def, max_def]; done)
          | (simp_all; done)
    case _ =>
      rcases l with _ | ⟨m, ms⟩ <;>
        · simp only [calculate_quality_score, amended_quality_score,
            List.isEmpty_cons, List.isEmpty_nil, Bool.false_eq_true, if_false,
            if_true]
          split_ifs <;>
            first
              | (norm_num [round1, round_eq, min_def, max_def]; done)
              | (simp_all; done)
  case _ =>
    rcases d with _ | ⟨p, ds⟩ <;> rcases h with _ | l
    case _ =>
      simp only [calculate_quality_score, amended_quality_score, dget, vTruthy,
        List.isEmpty_nil, Bool.not_true, Bool.false_and, Bool.false_eq_true,
        if_false, if_true]
      split_ifs <;>
        first
          | (norm_num [round1, round_eq, min_def, max_def]; done)
          | (simp_all; done)
    case _ =>
      rcases l with _ | ⟨m, ms⟩ <;>
        · simp only [calculate_quality_score, amended_quality_score, dget,
            vTruthy, List.isEmpty_cons, List.isEmpty_nil, Bool.not_true,
            Bool.false_and, Bool.false_eq_true, if_false, if_true]
          split_ifs <;>
            first
              | (norm_num [round1, round_eq, min_def, max_def]; done)
              | (simp_all; done)
    case _ =>
      simp only [calculate_quality_score, amended_quality_score,
        List.isEmpty_cons, Bool.not_false, Bool.true_and, Bool.false_eq_true,
        if_false, if_true]
      split_ifs <;>
        first
          | (norm_num [round1, round_eq, min_def, max_def]; done)
          | (simp_all; done)
    case _ =>
      rcases l with _ | ⟨m, ms⟩ <;>
        · simp only [calculate_quality_score, amended_quality_score,
            List.isEmpty_cons, List.isEmpty_nil, Bool.not_false, Bool.true_and,
            Bool.false_eq_true, if_false, if_true]
          split_ifs <;>
            first
              | (norm_num [round1, round_eq, min_def, max_def]; done)
              | (simp_all; done)

/-- C1 counterexample: with the argument payload {"emergency": false} the
merge `{"emergency": True, **arguments}` lets the payload override the flag,
so the stored emergency key is false rather than true (the turn does still
end), refuting the claim for arbitrary argument payloads. -/
theorem c1_report_emergency_counterexample :
    dget (handle_response_required "groq" (init_state []) 1 []
        (.ok ⟨"", some ⟨"report_emergency",
          .parsed (.vDict [("emergency", .vBool false)])⟩, "groq", false⟩)).1.structured
      "emergency" = some (.vBool false)
    ∧ (some (Val.vBool false) : Option Val) ≠ some (.vBool true)
    ∧ (handle_response_required "groq" (init_state []) 1 []
        (.ok ⟨"", some ⟨"report_emergency",
          .parsed (.vDict [("emergency", .vBool false)])⟩, "groq", false⟩)).2.1.end_call
      = true := by
  refine ⟨rfl, by simp, rfl⟩

/-- C1 (amended): a `report_emergency` invocation whose argument string
parses to a JSON object (as every json.loads failure also does, being
replaced by the empty object) merges the record with provenance
"websocket_realtime", replaces the reply with the escalation
acknowledgment, emits end_call=true and breaks the loop — provided the
preceding fallback-log append does not itself raise (any existing
`llm_fallbacks` entry is a list, the only kind this system writes). The
stored `emergency=true` flag additionally requires that the payload does not
itself bind the key "emergency", because `{"emergency": True, **arguments}`
lets a payload binding win. An argument string parsing to valid JSON that is
not an object instead makes the merge raise: the turn is answered with the
apology and end_call=false. -/
theorem c1_report_emergency (llm_provider : String) (st : SessState)
    (rid : Int) (tr : List Msg) (resp : LLMResponse) (payload : ArgPayload)
    (hfc : resp.function_call = some ⟨"report_emergency", payload⟩) :
    (∀ args : Dict, parseArgsOrEmpty payload = .vDict args →
      (resp.fallback_used = true → fallback_log_ok st.structured) →
      (handle_response_required llm_provider st rid tr (.ok resp)).2.2 = true
      ∧ (handle_response_required llm_provider st rid tr (.ok resp)).2.1.end_call
          = true
      ∧ (handle_response_required llm_provider st rid tr (.ok resp)).2.1.response_id
          = rid
      ∧ (handle_response_required llm_provider st rid tr (.ok resp)).2.1.content
          = "I understand this is an emergency. I\x27m connecting you to a dispatcher now."
      ∧ dget (handle_response_required llm_provider st rid tr (.ok resp)).1.structured
          "data_source" = some (.vStr "websocket_realtime")
      ∧ ("emergency" ∉ args.map Prod.fst →
         dget (handle_response_required llm_provider st rid tr (.ok resp)).1.structured
           "emergency" = some (.vBool true)))
    ∧ (∀ v : Val, parseArgsOrEmpty payload = v → starUnpack v = .error () →
       (handle_response_required llm_provider st rid tr (.ok resp)).2.1
         = ⟨rid, "I\x27m having trouble processing that. Can you repeat?",
             true, false⟩
       ∧ (handle_response_required llm_provider st rid tr (.ok resp)).2.2
         = false) := by
  constructor
  · intro args hargs hwf
    obtain ⟨s1, hF⟩ : ∃ s1,
        (if resp.fallback_used = true then
           append_fallback_log st.structured
             (.vDict [("primary", .vStr llm_provider),
                      ("used", .vStr resp.provider_used)])
         else .ok st.structured) = .ok s1 := by
      by_cases hfb : resp.fallback_used = true
      · obtain ⟨s1, h⟩ := append_fallback_log_ok st.structured _ (hwf hfb)
        exact ⟨s1, by rw [if_pos hfb, h]⟩
      · exact ⟨st.structured, by rw [if_neg hfb]⟩
    have hex : execute_function "report_emergency" (parseArgsOrEmpty payload)
        s1 resp.content st.should_end_call
        = .ok { structured := dset
                  (dupdate s1 (dupdate [("emergency", Val.vBool true)] args))
                  "data_source" (.vStr "websocket_realtime"),
                response_text := "I understand this is an emergency. I\x27m connecting you to a dispatcher now.",
                should_end_call := true } := by
      rw [hargs]
      simp [execute_function, starUnpack]
    have hmain : handle_response_required llm_provider st rid tr (.ok resp)
        = ({ conversation_history :=
               (if last_user_message tr ≠ "" then
                  st.conversation_history ++ [⟨"user", last_user_message tr⟩]
                else st.conversation_history)
               ++ [⟨"assistant", "I understand this is an emergency. I\x27m connecting you to a dispatcher now."⟩],
             structured := dset
               (dupdate s1 (dupdate [("emergency", Val.vBool true)] args))
               "data_source" (.vStr "websocket_realtime"),
             should_end_call := true },
           ⟨rid, "I understand this is an emergency. I\x27m connecting you to a dispatcher now.",
            true, true⟩, true) := by
      simp only [handle_response_required, hfc, hF, hex]
    rw [hmain]
    refine ⟨rfl, rfl, rfl, rfl, dget_dset_self _ _ _, ?_⟩
    intro hkey
    have hne : ("emergency" : String) ≠ "data_source" := by decide
    have htemp : dget (dupdate [("emergency", Val.vBool true)] args)
        "emergency" = some (.vBool true) := by
      rw [dget_dupdate_notin _ _ _ hkey]
      simp [dget]
    have hnodup : NodupKeys (dupdate [("emergency", Val.vBool true)] args) :=
      nodupKeys_dupdate _ _ (by simp [NodupKeys, dkeys])
    rw [dget_dset_ne _ _ _ _ hne]
    exact dget_dupdate_of_mem _ _ _ _ hnodup htemp
  · intro v hv hno
    rcases hFall : (if resp.fallback_used = true then
        append_fallback_log st.structured
          (.vDict [("primary", .vStr llm_provider),
                   ("used", .vStr resp.provider_used)])
      else .ok st.structured) with d1 | s1
    · have hmain : handle_response_required llm_provider st rid tr (.ok resp)
          = ({ conversation_history :=
                 (if last_user_message tr ≠ "" then
                    st.conversation_history ++ [⟨"user", last_user_message tr⟩]
                  else st.conversation_history),
               structured := d1, should_end_call := st.should_end_call },
             ⟨rid, "I\x27m having trouble processing that. Can you repeat?",
              true, false⟩, false) := by
        simp only [handle_response_required, hFall]
      rw [hmain]
      exact ⟨rfl, rfl⟩
    · have hex : execute_function "report_emergency" (parseArgsOrEmpty payload)
          s1 resp.content st.should_end_call = .error s1 := by
        rw [hv]
        simp [execute_function, hno]
      have hmain : handle_response_required llm_provider st rid tr (.ok resp)
          = ({ conversation_history :=
                 (if last_user_message tr ≠ "" then
                    st.conversation_history ++ [⟨"user", last_user_message tr⟩]
                  else st.conversation_history),
               structured := s1, should_end_call := st.should_end_call },
             ⟨rid, "I\x27m having trouble processing that. Can you repeat?",
              true, false⟩, false) := by
        simp only [handle_response_required, hfc, hFall, hex]
      rw [hmain]
      exact ⟨rfl, rfl⟩

/-- C1 witness: a concrete emergency turn whose payload is an object not
binding "emergency" ends the call and stores emergency=true; the concrete
non-object payload `5`-like value (here a JSON string) yields the apology
with end_call=false. -/
theorem c1_report_emergency_witness :
    (handle_response_required "groq" (init_state []) 3 []
        (.ok ⟨"", some ⟨"report_emergency",
          .parsed (.vDict [("emergency_type", .vStr "accident")])⟩,
          "groq", false⟩)).2.2 = true
    ∧ dget (handle_response_required "groq" (init_state []) 3 []
        (.ok ⟨"", some ⟨"report_emergency",
          .parsed (.vDict [("emergency_type", .vStr "accident")])⟩,
          "groq", false⟩)).1.structured "emergency" = some (.vBool true)
    ∧ (handle_response_required "groq" (init_state []) 3 []
        (.ok ⟨"", some ⟨"report_emergency", .parsed (.vStr "hello")⟩,
          "groq", false⟩)).2.1
        = ⟨3, "I\x27m having trouble processing that. Can you repeat?",
            true, false⟩ := by
  have h := (c1_report_emergency "groq" (init_state []) 3 []
      ⟨"", some ⟨"report_emergency",
        .parsed (.vDict [("emergency_type", .vStr "accident")])⟩, "groq", false⟩
      (.parsed (.vDict [("emergency_type", .vStr "accident")])) rfl).1
      [("emergency_type", .vStr "accident")] rfl
      (fun hf => absurd hf (by decide))
  have h2 := ((c1_report_emergency "groq" (init_state []) 3 []
      ⟨"", some ⟨"report_emergency", .parsed (.vStr "hello")⟩, "groq", false⟩
      (.parsed (.vStr "hello")) rfl).2 (.vStr "hello") rfl rfl).1
  exact ⟨h.1, h.2.2.2.2.2 (by decide), h2⟩

/-- C5: when both providers fail, `generate_response` raises the
orchestration error, and a turn handled under that failure still emits the
apology turn-response carrying the received response id with
content_complete=true and end_call=false, and the loop does not break. -/
theorem c5_double_failure_apology
    (attempt : Provider → Except String RawLLMResult)
    (primary llm_provider : String) (e e2 : String) (st : SessState)
    (rid : Int) (tr : List Msg)
    (h1 : attempt (routeProvider primary) = .error e)
    (h2 : attempt (routeProvider (fallbackName primary)) = .error e2) :
    generate_response attempt primary
      = .error ("All LLM providers failed: " ++ e2)
    ∧ ∀ emsg,
      (handle_response_required llm_provider st rid tr (.error emsg)).2.1
        = ⟨rid, "I\x27m having trouble processing that. Can you repeat?",
            true, false⟩
      ∧ (handle_response_required llm_provider st rid tr (.error emsg)).2.2
        = false := by
  constructor
  · simp only [generate_response]
    rw [h1, h2]
  · intro emsg
    exact ⟨rfl, rfl⟩

/-- C5 witness: both providers failing on a concrete request produce the
orchestration error and the apology turn for response id 7. -/
theorem c5_double_failure_apology_witness :
    generate_response (fun _ => .error "down") "groq"
      = .error ("All LLM providers failed: " ++ "down")
    ∧ ∀ emsg,
      (handle_response_required "groq" (init_state []) 7 [] (.error emsg)).2.1
        = ⟨7, "I\x27m having trouble processing that. Can you repeat?",
            true, false⟩
      ∧ (handle_response_required "groq" (init_state []) 7 [] (.error emsg)).2.2
        = false :=
  c5_double_failure_apology (fun _ => .error "down") "groq" "groq"
    "down" "down" (init_state []) 7 [] rfl rfl

/-- C7 counterexample: the argument string `"hello"` is valid JSON but not
an object, so `json.loads` succeeds and the `except: arguments = {}` branch
does not run; `structured_results.update("hello")` then raises and the turn
is answered with the apology — not with the confirmation that empty
arguments produce. The payload is therefore not treated as empty
arguments. -/
theorem c7_nonobject_counterexample :
    (handle_response_required "groq" (init_state []) 1 []
        (.ok ⟨"", some ⟨"update_delivery_status", .parsed (.vStr "hello")⟩,
          "groq", false⟩)).2.1
      = ⟨1, "I\x27m having trouble processing that. Can you repeat?",
          true, false⟩
    ∧ (handle_response_required "groq" (init_state []) 1 []
        (.ok ⟨"", some ⟨"update_delivery_status", .parsed (.vDict [])⟩,
          "groq", false⟩)).2.1.content
      = "Got it, I\x27ve updated your status. Thank you!"
    ∧ ("I\x27m having trouble processing that. Can you repeat?" : String)
      ≠ "Got it, I\x27ve updated your status. Thank you!" := by
  refine ⟨rfl, rfl, by decide⟩

/-- C7 (amended): only a `json.loads` failure is treated as empty arguments
(the turn then proceeds exactly as with the empty object); an argument
string parsing to valid JSON that is not an object is not treated as empty —
for `report_emergency` the merge raises and the turn is answered with the
apology, end_call=false; an unknown function name leaves the turn exactly as
if no function had been invoked (no structured-result mutation, reply text
unmodified, end flag unchanged), for every payload. -/
theorem c7_malformed_and_unknown (llm_provider : String) (st : SessState)
    (rid : Int) (tr : List Msg) (content provider_used : String)
    (fb : Bool) (name : String) (payload : ArgPayload) :
    (handle_response_required llm_provider st rid tr
        (.ok ⟨content, some ⟨name, .malformed⟩, provider_used, fb⟩)
      = handle_response_required llm_provider st rid tr
        (.ok ⟨content, some ⟨name, .parsed (.vDict [])⟩, provider_used, fb⟩))
    ∧ (name ≠ "update_delivery_status" → name ≠ "report_emergency" →
       name ≠ "end_conversation" →
       handle_response_required llm_provider st rid tr
           (.ok ⟨content, some ⟨name, payload⟩, provider_used, fb⟩)
         = handle_response_required llm_provider st rid tr
           (.ok ⟨content, none, provider_used, fb⟩))
    ∧ (∀ v : Val, payload = .parsed v → starUnpack v = .error () →
       (handle_response_required llm_provider st rid tr
           (.ok ⟨content, some ⟨"report_emergency", payload⟩,
             provider_used, fb⟩)).2.1
         = ⟨rid, "I\x27m having trouble processing that. Can you repeat?",
             true, false⟩
       ∧ (handle_response_required llm_provider st rid tr
           (.ok ⟨content, some ⟨"report_emergency", payload⟩,
             provider_used, fb⟩)).2.2
         = false) := by
  refine ⟨rfl, ?_, ?_⟩
  · intro h1 h2 h3
    by_cases hfb : fb = true
    · rcases hFall : append_fallback_log st.structured
          (.vDict [("primary", .vStr llm_provider),
                   ("used", .vStr provider_used)]) with d1 | s1 <;>
        simp [handle_response_required, execute_function, h1, h2, h3, hfb, hFall]
    · simp [handle_response_required, execute_function, h1, h2, h3, hfb]
  · intro v hv hno
    subst hv
    by_cases hfb : fb = true
    · rcases hFall : append_fallback_log st.structured
          (.vDict [("primary", .vStr llm_provider),
                   ("used", .vStr provider_used)]) with d1 | s1 <;>
        · constructor <;>
            simp [handle_response_required, execute_function, parseArgsOrEmpty,
              hfb, hFall, hno]
    · constructor <;>
        simp [handle_response_required, execute_function, parseArgsOrEmpty,
          hfb, hno]

/-- C7 witness: a concrete turn with a malformed payload equals the
empty-object turn; a concrete unknown function name with a non-object
payload leaves the turn as if no function was called; a concrete non-object
payload on `report_emergency` yields the apology. -/
theorem c7_malformed_and_unknown_witness :
    (handle_response_required "groq" (init_state []) 1 []
        (.ok ⟨"ok", some ⟨"bogus_function", .malformed⟩, "groq", false⟩)
      = handle_response_required "groq" (init_state []) 1 []
        (.ok ⟨"ok", some ⟨"bogus_function", .parsed (.vDict [])⟩,
          "groq", false⟩))
    ∧ (handle_response_required "groq" (init_state []) 1 []
        (.ok ⟨"ok", some ⟨"bogus_function", .parsed (.vStr "hi")⟩,
          "groq", false⟩)
      = handle_response_required "groq" (init_state []) 1 []
        (.ok ⟨"ok", none, "groq", false⟩))
    ∧ (handle_response_required "groq" (init_state []) 1 []
        (.ok ⟨"ok", some ⟨"report_emergency", .parsed (.vStr "hi")⟩,
          "groq", false⟩)).2.1
      = ⟨1, "I\x27m having trouble processing that. Can you repeat?",
          true, false⟩ :=
  ⟨(c7_malformed_and_unknown "groq" (init_state []) 1 [] "ok" "groq" false
      "bogus_function" (.parsed (.vStr "hi"))).1,
   (c7_malformed_and_unknown "groq" (init_state []) 1 [] "ok" "groq" false
      "bogus_function" (.parsed (.vStr "hi"))).2.1
     (by decide) (by decide) (by decide),
   ((c7_malformed_and_unknown "groq" (init_state []) 1 [] "ok" "groq" false
      "report_emergency" (.parsed (.vStr "hi"))).2.2
     (.vStr "hi") rfl rfl).1⟩

theorem handle_history_cases (llm_provider : String) (st : SessState)
    (rid : Int) (tr : List Msg) (llm : Except String LLMResponse) :
    ∃ t, (handle_response_required llm_provider st rid tr llm).1.conversation_history
      = (if last_user_message tr ≠ "" then
           st.conversation_history ++ [⟨"user", last_user_message tr⟩]
         else st.conversation_history) ++ t := by
  cases llm with
  | error e => exact ⟨[], by simp [handle_response_required]⟩
  | ok resp =>
    by_cases hfb : resp.fallback_used = true
    · rcases hFall : append_fallback_log st.structured
          (.vDict [("primary", .vStr llm_provider),
                   ("used", .vStr resp.provider_used)]) with d1 | s1
      · exact ⟨[], by simp [handle_response_required, hfb, hFall]⟩
      · rcases hfc : resp.function_call with _ | fc
        · exact ⟨[⟨"assistant", resp.content⟩],
            by simp [handle_response_required, hfb, hFall, hfc]⟩
        · rcases hex : execute_function fc.name (parseArgsOrEmpty fc.arguments)
              s1 resp.content st.should_end_call with d2 | exec
          · exact ⟨[], by simp [handle_response_required, hfb, hFall, hfc, hex]⟩
          · exact ⟨[⟨"assistant", exec.response_text⟩],
              by simp [handle_response_required, hfb, hFall, hfc, hex]⟩
    · rcases hfc : resp.function_call with _ | fc
      · exact ⟨[⟨"assistant", resp.content⟩],
          by simp [handle_response_required, hfb, hfc]⟩
      · rcases hex : execute_function fc.name (parseArgsOrEmpty fc.arguments)
            st.structured resp.content st.should_end_call with d2 | exec
        · exact ⟨[], by simp [handle_response_required, hfb, hfc, hex]⟩
        · exact ⟨[⟨"assistant", exec.response_text⟩],
            by simp [handle_response_required, hfb, hfc, hex]⟩

theorem handle_history_mono (llm_provider : String) (st : SessState)
    (rid : Int) (tr : List Msg) (llm : Except String LLMResponse) :
    st.conversation_history <+:
      (handle_response_required llm_provider st rid tr llm).1.conversation_history := by
  obtain ⟨t, ht⟩ := handle_history_cases llm_provider st rid tr llm
  rw [ht]
  split_ifs
  · rw [List.append_assoc]
    exact List.prefix_append _ _
  · exact List.prefix_append _ _

theorem session_step_history_mono (llm_provider : String) (st : SessState)
    (ev : Event) (llm : Except String LLMResponse) :
    st.conversation_history <+:
      (session_step llm_provider st ev llm).1.conversation_history := by
  unfold session_step
  split_ifs
  · exact handle_history_mono llm_provider st ev.response_id ev.transcript llm
  · exact List.prefix_rfl

theorem run_session_history_mono (llm_provider : String)
    (trace : List (Event × Except String LLMResponse)) :
    ∀ st : SessState,
      st.conversation_history <+:
        (run_session llm_provider st trace).1.conversation_history := by
  induction trace with
  | nil => intro st; exact List.prefix_rfl
  | cons p rest ih =>
      intro st
      obtain ⟨ev, llm⟩ := p
      simp only [run_session]
      split_ifs
      · exact session_step_history_mono llm_provider st ev llm
      · exact (session_step_history_mono llm_provider st ev llm).trans (ih _)

/-- C8 counterexample: a session whose first (and only) turn-request carries
the driver utterance "hello" ends with conversation history
[user "hello", assistant "Hi there"]: the first recorded Turn is the
driver's, not the agent's opening line, which is emitted on the wire but
never appended to the history. -/
theorem c8_first_turn_counterexample :
    (run_session "groq" (init_state [])
        [(⟨"response_required", 1, [⟨"user", "hello"⟩]⟩,
          .ok ⟨"Hi there", none, "groq", false⟩)]).1.conversation_history
      = [⟨"user", "hello"⟩, ⟨"assistant", "Hi there"⟩]
    ∧ (Msg.mk "user" "hello").role ≠ "assistant" := by
  refine ⟨rfl, by simp⟩

/-- C8 (amended): the conversation history is append-only along the run (so
sequence positions are strictly increasing), but the agent's opening line is
never recorded in it: when the first inbound event is a `response_required`
carrying a driver utterance, the first recorded Turn of the whole run is
that driver turn (role "user"), not an agent turn. -/
theorem c8_history_invariant :
    (∀ (llm_provider : String)
       (trace : List (Event × Except String LLMResponse)) (st : SessState),
       st.conversation_history <+:
         (run_session llm_provider st trace).1.conversation_history)
    ∧ (∀ (llm_provider : String) (s0 : Dict) (ev : Event)
         (llm : Except String LLMResponse)
         (rest : List (Event × Except String LLMResponse)),
       ev.interaction_type = "response_required" →
       last_user_message ev.transcript ≠ "" →
       (run_session llm_provider (init_state s0)
           ((ev, llm) :: rest)).1.conversation_history.head?
         = some ⟨"user", last_user_message ev.transcript⟩) := by
  constructor
  · intro llm_provider trace st
    exact run_session_history_mono llm_provider trace st
  · intro llm_provider s0 ev llm rest hty hlum
    obtain ⟨t, ht⟩ := handle_history_cases llm_provider (init_state s0)
      ev.response_id ev.transcript llm
    have hstep : (session_step llm_provider (init_state s0) ev llm).1.conversation_history
        = ⟨"user", last_user_message ev.transcript⟩ :: t := by
      simp only [session_step, hty, if_true, if_pos]
      rw [ht, if_pos hlum]
      rfl
    simp only [run_session]
    split_ifs
    · rw [hstep]
      rfl
    · have hpre := run_session_history_mono llm_provider rest
        (session_step llm_provider (init_state s0) ev llm).1
      obtain ⟨suffix, hsuf⟩ := hpre
      rw [← hsuf, hstep]
      rfl

/-- Provenance bookkeeping keys of StructuredResult (spec section 3: the
`data_source` tag and the accumulated fallback-usage log). -/
def BOOKKEEPING_KEYS : List String := ["data_source", "llm_fallbacks"]

/-- The post-call gate exactly as the claim words it: StructuredResult is
present, non-empty, and contains more than bookkeeping keys. -/
def claimed_usable (sr : Option Dict) : Bool :=
  match sr with
  | some d => !d.isEmpty && d.any (fun p => !BOOKKEEPING_KEYS.contains p.1)
  | none => false

/-- C2 counterexample: a realtime StructuredResult holding the business key
"status" alongside the bookkeeping key "llm_fallbacks" is present, non-empty
and contains more than bookkeeping keys — yet the handler does not mark
"websocket_realtime": since `"llm_fallbacks" in dict` fails the code's gate,
it runs LLM post-processing and tags "webhook_postprocessing". -/
theorem c2_provenance_counterexample :
    claimed_usable
        (some [("llm_fallbacks", .vList []), ("status", .vStr "delayed")])
      = true
    ∧ provenance (process_call_ended
        (some [("llm_fallbacks", .vList []), ("status", .vStr "delayed")])
        "driver: running late" (.ok [("driver_status", .vStr "Delayed")]))
      = some (.vStr "webhook_postprocessing")
    ∧ (some (Val.vStr "webhook_postprocessing") : Option Val)
      ≠ some (.vStr "websocket_realtime") := by
  refine ⟨rfl, rfl, by simp⟩

/-- C2 (amended): the post-call gate is: StructuredResult present, non-empty
and not containing the key `llm_fallbacks`; when it fires the handler only
marks provenance "websocket_realtime" (no extraction — the result does not
depend on the post-processing outcome at all); and when the session left no
realtime StructuredResult (absent or empty), the final provenance is never
"websocket_realtime". -/
theorem c2_provenance_gate :
    (∀ (d : Dict) (raw : String) (post : Except String Dict),
       d.isEmpty = false → hasKey d "llm_fallbacks" = false → raw ≠ "" →
       process_call_ended (some d) raw post
         = some (dset d "data_source" (.vStr "websocket_realtime")))
    ∧ (∀ (raw : String) (post : Except String Dict),
       provenance (process_call_ended none raw post)
         ≠ some (.vStr "websocket_realtime")
       ∧ provenance (process_call_ended (some []) raw post)
         ≠ some (.vStr "websocket_realtime")) := by
  constructor
  · intro d raw post hne hkey hraw
    simp [process_call_ended, has_websocket_data, hne, hkey, hraw]
  · intro raw post
    constructor
    · by_cases hraw : raw = ""
      · subst hraw
        simp [process_call_ended, provenance]
      · cases post with
        | ok sd =>
            simp only [process_call_ended, has_websocket_data, provenance]
            simp [hraw, dget_dset_self]
        | error msg =>
            simp only [process_call_ended, has_websocket_data, provenance]
            simp [hraw, dget]
    · by_cases hraw : raw = ""
      · subst hraw
        simp [process_call_ended, provenance, dget]
      · cases post with
        | ok sd =>
            simp only [process_call_ended, has_websocket_data, provenance]
            simp [hraw, dget_dset_self]
        | error msg =>
            simp only [process_call_ended, has_websocket_data, provenance]
            simp [hraw, dget]

/-- C2 witness: a concrete non-empty realtime result without `llm_fallbacks`
is marked "websocket_realtime" untouched, and a concrete call with no
realtime result never ends up with websocket provenance. -/
theorem c2_provenance_gate_witness :
    process_call_ended (some [("status", .vStr "delayed")]) "t"
        (.ok [("x", .vStr "y")])
      = some (dset [("status", Val.vStr "delayed")] "data_source"
          (.vStr "websocket_realtime"))
    ∧ provenance (process_call_ended none "t" (.ok [("x", .vStr "y")]))
      ≠ some (.vStr "websocket_realtime") :=
  ⟨c2_provenance_gate.1 [("status", .vStr "delayed")] "t"
      (.ok [("x", .vStr "y")]) rfl rfl (by decide),
   (c2_provenance_gate.2 "t" (.ok [("x", .vStr "y")])).1⟩

/-- C8 witness: in a concrete run whose first event is a `response_required`
carrying the driver utterance "hello", the first recorded Turn is that
driver turn. -/
theorem c8_history_invariant_witness :
    (run_session "groq" (init_state [])
        [(⟨"response_required", 1, [⟨"user", "hello"⟩]⟩,
          .ok ⟨"Hi", none, "groq", false⟩)]).1.conversation_history.head?
      = some ⟨"user", last_user_message [⟨"user", "hello"⟩]⟩ :=
  c8_history_invariant.2 "groq" [] ⟨"response_required", 1, [⟨"user", "hello"⟩]⟩
    (.ok ⟨"Hi", none, "groq", false⟩) [] rfl (by decide)
